import Mathlib

/-!
Verification of the STP payment-order client (`src/stp/stp.service.ts`).

Shallow embedding conventions:
* TypeScript runtime values that may be `null`/`undefined` are modelled as
  `Option`; `none` stands for a nullish value.  Every DTO attribute is an
  `Option` because the service code guards each access with `??`.
* JavaScript numbers appearing in this service are institution codes,
  amounts, dates and small catalogue codes; they are modelled as `Int`,
  rendered in plain decimal (`toString`), which matches JavaScript's
  rendering of integral numbers in this range.
* A JavaScript object of type `Record<string, string>` is modelled as a
  function `String → Option (Option String)`: the outer `Option` is key
  presence, the inner one distinguishes a key holding `undefined`.
* Effects (RSA signing via the filesystem and crypto library, the HTTP
  call) are modelled as oracle parameters of the orchestrator, with the
  `try`/`catch` structure of the source rendered as a `match` on the
  oracle outcome.
-/

/-- Configuration values consumed by `StpService`'s constructor.  Only the
fields the verified functions read are kept: the default company name
(`STP_EMPRESA`, default `''`) and the default operating-institution code
(`STP_INSTITUCION_OPERANTE`, default `90646`). -/
structure StpConfig where
  empresa : String
  institucionOperante : Int
deriving Repr, DecidableEq

/-- Constructor defaults of `StpService` when the environment supplies
nothing. -/
def defaultConfig : StpConfig := { empresa := "", institucionOperante := 90646 }

/-- Embedding of `OrdenPagoDto` (src/stp/dto/orden-pago.dto.ts).  Every
attribute is optional at runtime; the service itself applies `??`
fallbacks to each one. -/
structure OrdenPagoDto where
  institucionContraparte : Option Int := none
  empresa : Option String := none
  fechaOperacion : Option Int := none
  folioOrigen : Option String := none
  claveRastreo : Option String := none
  institucionOperante : Option Int := none
  monto : Option Int := none
  tipoPago : Option Int := none
  tipoCuentaOrdenante : Option Int := none
  nombreOrdenante : Option String := none
  cuentaOrdenante : Option String := none
  rfcCurpOrdenante : Option String := none
  tipoCuentaBeneficiario : Option Int := none
  nombreBeneficiario : Option String := none
  cuentaBeneficiario : Option String := none
  rfcCurpBeneficiario : Option String := none
  emailBeneficiario : Option String := none
  tipoCuentaBeneficiario2 : Option Int := none
  nombreBeneficiario2 : Option String := none
  cuentaBeneficiario2 : Option String := none
  rfcCurpBeneficiario2 : Option String := none
  conceptoPago : Option String := none
  conceptoPago2 : Option String := none
  claveCatUsuario1 : Option Int := none
  claveCatUsuario2 : Option Int := none
  clavePago : Option String := none
  referenciaCobranza : Option String := none
  referenciaNumerica : Option Int := none
  tipoOperacion : Option String := none
  topologia : Option String := none
  usuario : Option String := none
  medioEntrega : Option Int := none
  prioridad : Option Int := none
  iva : Option Int := none
  longitud : Option String := none
  latitud : Option String := none
deriving Repr, DecidableEq

/-- Rendering of `orden.x ?? ''` for a numeric attribute, followed by the
stringification `Array.prototype.join` applies to each element: a nullish
number becomes `''`, a present one its decimal text. -/
def renderNum : Option Int → String
  | some n => toString n
  | none => ""

/-- Rendering of `orden.x ?? ''` for a string attribute. -/
def renderStr : Option String → String
  | some s => s
  | none => ""

/-- The `campos` array of `construirCadenaOriginal`
(src/stp/stp.service.ts lines 94-129), element by element in source
order.  Fields 2 (`empresa`) and 6 (`institucionOperante`) fall back to
the configured defaults instead of `''`. -/
def campos (cfg : StpConfig) (orden : OrdenPagoDto) : List String :=
  [ renderNum orden.institucionContraparte,
    orden.empresa.getD cfg.empresa,
    renderNum orden.fechaOperacion,
    renderStr orden.folioOrigen,
    renderStr orden.claveRastreo,
    toString (orden.institucionOperante.getD cfg.institucionOperante),
    renderNum orden.monto,
    renderNum orden.tipoPago,
    renderNum orden.tipoCuentaOrdenante,
    renderStr orden.nombreOrdenante,
    renderStr orden.cuentaOrdenante,
    renderStr orden.rfcCurpOrdenante,
    renderNum orden.tipoCuentaBeneficiario,
    renderStr orden.nombreBeneficiario,
    renderStr orden.cuentaBeneficiario,
    renderStr orden.rfcCurpBeneficiario,
    renderStr orden.emailBeneficiario,
    renderNum orden.tipoCuentaBeneficiario2,
    renderStr orden.nombreBeneficiario2,
    renderStr orden.cuentaBeneficiario2,
    renderStr orden.rfcCurpBeneficiario2,
    renderStr orden.conceptoPago,
    renderStr orden.conceptoPago2,
    renderNum orden.claveCatUsuario1,
    renderNum orden.claveCatUsuario2,
    renderStr orden.clavePago,
    renderStr orden.referenciaCobranza,
    renderNum orden.referenciaNumerica,
    renderStr orden.tipoOperacion,
    renderStr orden.topologia,
    renderStr orden.usuario,
    renderNum orden.medioEntrega,
    renderNum orden.prioridad,
    renderNum orden.iva ]

/-- Embedding of JavaScript `Array.prototype.join('|')`. -/
def joinPipe : List String → String
  | [] => ""
  | [s] => s
  | s :: t :: rest => s ++ "|" ++ joinPipe (t :: rest)

/-- Embedding of `construirCadenaOriginal`: template literal
`||${campos.join('|')}||`. -/
def construirCadenaOriginal (cfg : StpConfig) (orden : OrdenPagoDto) : String :=
  "||" ++ joinPipe (campos cfg orden) ++ "||"

/-- An order with every attribute nullish, for counterexamples. -/
def ordenVacia : OrdenPagoDto := {}

/-- Concrete evaluation: the all-nullish order under the default
configuration renders the fallback operating-institution code in an
otherwise empty canonical string. -/
theorem construirCadenaOriginal_ordenVacia_eval :
    construirCadenaOriginal defaultConfig ordenVacia =
      "|||||||90646||||||||||||||||||||||||||||||" := by
  decide

/-- A JavaScript object of type `Record<string, string>`: key presence is
the outer `Option`, a key bound to `undefined` is `some none`. -/
def Payload : Type := String → Option (Option String)

/-- The empty object literal. -/
def vacio : Payload := fun _ => none

/-- Property assignment `p[k] = v`. -/
def asignar (p : Payload) (k : String) (v : Option String) : Payload :=
  fun q => if q = k then some v else p q

/-- Embedding of `if (orden.x) payload.k = String(orden.x)` for an
optional numeric attribute: JavaScript truthiness skips nullish and `0`. -/
def asignarSiNum (p : Payload) (k : String) (x : Option Int) : Payload :=
  match x with
  | some n => if n ≠ 0 then asignar p k (some (toString n)) else p
  | none => p

/-- Embedding of `if (orden.x) payload.k = orden.x` for an optional string
attribute: JavaScript truthiness skips nullish and `''`. -/
def asignarSiStr (p : Payload) (k : String) (x : Option String) : Payload :=
  match x with
  | some s => if s ≠ "" then asignar p k (some s) else p
  | none => p

/-- JavaScript `String(x)` on a possibly-undefined number: `String(undefined)`
is the text `undefined`. -/
def jsStringN : Option Int → String
  | some n => toString n
  | none => "undefined"

/-- Embedding of `construirPayload` (src/stp/stp.service.ts lines
170-219): the sequence of property assignments in source order —
required fields, geolocation, signature, then the truthiness-guarded
optional fields. -/
def construirPayload (cfg : StpConfig) (orden : OrdenPagoDto) (firma : String) : Payload :=
  let p := vacio
  let p := asignar p "claveRastreo" orden.claveRastreo
  let p := asignar p "conceptoPago" orden.conceptoPago
  let p := asignar p "cuentaOrdenante" orden.cuentaOrdenante
  let p := asignar p "cuentaBeneficiario" orden.cuentaBeneficiario
  let p := asignar p "empresa" (some (orden.empresa.getD cfg.empresa))
  let p := asignar p "institucionContraparte" (some (jsStringN orden.institucionContraparte))
  let p := asignar p "institucionOperante"
      (some (toString (orden.institucionOperante.getD cfg.institucionOperante)))
  let p := asignar p "monto" (some (jsStringN orden.monto))
  let p := asignar p "nombreBeneficiario" orden.nombreBeneficiario
  let p := asignar p "nombreOrdenante" orden.nombreOrdenante
  let p := asignar p "referenciaNumerica" (some (jsStringN orden.referenciaNumerica))
  let p := asignar p "rfcCurpBeneficiario" orden.rfcCurpBeneficiario
  let p := asignar p "rfcCurpOrdenante" orden.rfcCurpOrdenante
  let p := asignar p "tipoCuentaBeneficiario" (some (jsStringN orden.tipoCuentaBeneficiario))
  let p := asignar p "tipoCuentaOrdenante" (some (jsStringN orden.tipoCuentaOrdenante))
  let p := asignar p "tipoPago" (some (jsStringN orden.tipoPago))
  let p := asignar p "latitud" orden.latitud
  let p := asignar p "longitud" orden.longitud
  let p := asignar p "firma" (some firma)
  let p := asignarSiNum p "fechaOperacion" orden.fechaOperacion
  let p := asignarSiStr p "folioOrigen" orden.folioOrigen
  let p := asignarSiStr p "emailBeneficiario" orden.emailBeneficiario
  let p := asignarSiNum p "tipoCuentaBeneficiario2" orden.tipoCuentaBeneficiario2
  let p := asignarSiStr p "nombreBeneficiario2" orden.nombreBeneficiario2
  let p := asignarSiStr p "cuentaBeneficiario2" orden.cuentaBeneficiario2
  let p := asignarSiStr p "rfcCurpBeneficiario2" orden.rfcCurpBeneficiario2
  let p := asignarSiStr p "conceptoPago2" orden.conceptoPago2
  let p := asignarSiNum p "claveCatUsuario1" orden.claveCatUsuario1
  let p := asignarSiNum p "claveCatUsuario2" orden.claveCatUsuario2
  let p := asignarSiStr p "clavePago" orden.clavePago
  let p := asignarSiStr p "referenciaCobranza" orden.referenciaCobranza
  let p := asignarSiStr p "tipoOperacion" orden.tipoOperacion
  let p := asignarSiStr p "topologia" orden.topologia
  let p := asignarSiStr p "usuario" orden.usuario
  let p := asignarSiNum p "medioEntrega" orden.medioEntrega
  let p := asignarSiNum p "prioridad" orden.prioridad
  let p := asignarSiNum p "iva" orden.iva
  p

/-- Abstraction of the JSON body STP answers with: the numeric identifier
at `resultado.id` and the one at top-level `id`; `none` covers both an
absent path and an explicit `null`. -/
structure RespBody where
  resultadoId : Option Int := none
  topId : Option Int := none
deriving Repr, DecidableEq

/-- Embedding of `const id = data?.resultado?.id ?? data?.id`. -/
def respId (d : RespBody) : Option Int :=
  match d.resultadoId with
  | some i => some i
  | none => d.topId

/-- Embedding of `StpRegistraOrdenResponse`
(src/stp/dto/orden-pago-response.dto.ts). -/
structure StpRegistraOrdenResponse where
  success : Bool
  folioStp : Option Int := none
  errorCode : Option Int := none
  message : String
  rawResponse : Option RespBody := none
  cadenaOriginal : Option String := none
  firma : Option String := none
deriving Repr, DecidableEq

/-- Embedding of `obtenerMensajeError` (src/stp/stp.service.ts lines
259-276): the fixed `errores` table, with the
`Error desconocido (código: N)` fallback for unmapped codes. -/
def obtenerMensajeError (codigo : Int) : String :=
  if codigo = 0 then "Error general"
  else if codigo = 1 then "Firma electrónica inválida"
  else if codigo = 2 then "Empresa no válida"
  else if codigo = 3 then "Institución contraparte no válida"
  else if codigo = 4 then "Cuenta ordenante no válida"
  else if codigo = 5 then "Cuenta beneficiario no válida"
  else if codigo = 6 then "Tipo de cuenta no válido"
  else if codigo = 7 then "Monto no válido"
  else if codigo = 8 then "Fecha de operación no válida"
  else if codigo = 9 then "Clave de rastreo duplicada"
  else if codigo = 10 then "RFC/CURP no válido"
  else "Error desconocido (código: " ++ toString codigo ++ ")"

/-- Embedding of `procesarRespuesta` (src/stp/stp.service.ts lines
226-254). -/
def procesarRespuesta (data : RespBody) : StpRegistraOrdenResponse :=
  match respId data with
  | none =>
      { success := false, message := "Respuesta inválida de STP", rawResponse := some data }
  | some id =>
      if id > 999 then
        { success := true, folioStp := some id,
          message := "Orden de pago registrada exitosamente", rawResponse := some data }
      else
        { success := false, errorCode := some id,
          message := obtenerMensajeError id, rawResponse := some data }

/-- Outcome of the awaited HTTP `PUT` in `registrarOrdenPago`: a resolved
response with a body, or a rejection.  A rejection carries
`error.response` (HTTP status plus possibly-undefined `response.data`)
when the server answered with an error status, and only `error.message`
for a connection-level failure. -/
inductive TransportOutcome where
  | ok (data : RespBody)
  | httpError (status : Int) (body : Option RespBody)
  | connError (msg : String)
deriving Repr, DecidableEq

/-- Rendering of a nullable identifier inside the modelled
`JSON.stringify` output. -/
def stringifyId : Option Int → String
  | some n => toString n
  | none => "null"

/-- Modelled `JSON.stringify` on the abstracted response body (the real
body is arbitrary JSON; only the two identifier slots are modelled). -/
def stringifyResp (r : RespBody) : String :=
  "\x7b\"resultado\":\x7b\"id\":" ++ stringifyId r.resultadoId ++ "\x7d,\"id\":" ++
    stringifyId r.topId ++ "\x7d"

/-- Modelled `JSON.stringify(error.response.data)`: `JSON.stringify` of an
`undefined` body renders as the text `undefined` inside the template
literal. -/
def stringifyBody : Option RespBody → String
  | some r => stringifyResp r
  | none => "undefined"

/-- Embedding of `registrarOrdenPago` (src/stp/stp.service.ts lines
34-87).  The RSA signing step (`generarFirma`, which reads the key file
and may throw) and the HTTP call are oracle parameters; the source's
`try`/`catch` becomes the `match` arms: a thrown signing error has no
`error.response`, so the catch block returns the connection-error shape
with the thrown message; an HTTP rejection carries `error.response` and
yields the `Error de STP` shape with `errorCode` set to the HTTP status.
Neither catch-branch result carries `cadenaOriginal` or `firma`; only the
non-throwing path copies them onto the processed result. -/
def registrarOrdenPago (cfg : StpConfig) (sign : String → Except String String)
    (transport : Payload → TransportOutcome) (orden : OrdenPagoDto) :
    StpRegistraOrdenResponse :=
  let cadenaOriginal := construirCadenaOriginal cfg orden
  match sign cadenaOriginal with
  | .error msg =>
      { success := false, message := "Error al conectar con STP: " ++ msg }
  | .ok firma =>
      match transport (construirPayload cfg orden firma) with
      | .connError msg =>
          { success := false, message := "Error al conectar con STP: " ++ msg }
      | .httpError status body =>
          { success := false, errorCode := some status,
            message := "Error de STP: " ++ stringifyBody body, rawResponse := body }
      | .ok data =>
          let resultado := procesarRespuesta data
          { resultado with cadenaOriginal := some cadenaOriginal, firma := some firma }

/-- A fully populated sample order (the spec's end-to-end scenario
values), used to instantiate theorems with hypotheses. -/
def ordenEjemplo : OrdenPagoDto :=
  { institucionContraparte := some 97846,
    empresa := some "EMPRESA_DEMO",
    claveRastreo := some "ABC12345",
    institucionOperante := some 90646,
    monto := some 1500,
    tipoPago := some 1,
    tipoCuentaOrdenante := some 40,
    nombreOrdenante := some "JUAN PEREZ",
    cuentaOrdenante := some "646180110400000007",
    rfcCurpOrdenante := some "ND",
    tipoCuentaBeneficiario := some 40,
    nombreBeneficiario := some "MARIA LOPEZ",
    cuentaBeneficiario := some "846180000400000001",
    rfcCurpBeneficiario := some "ND",
    conceptoPago := some "Pago de prueba",
    referenciaNumerica := some 1234567,
    longitud := some "-99.1332",
    latitud := some "19.4326" }

/-! Helper lemmas about the object model. -/

theorem vacio_apply (q : String) : vacio q = none := rfl

theorem asignar_self (p : Payload) (k : String) (v : Option String) :
    asignar p k v k = some v := by
  simp [asignar]

theorem asignar_ne (p : Payload) (k q : String) (v : Option String) (h : q ≠ k) :
    asignar p k v q = p q := by
  simp [asignar, h]

theorem asignarSiNum_ne (p : Payload) (k : String) (x : Option Int) (q : String)
    (h : q ≠ k) : asignarSiNum p k x q = p q := by
  cases x with
  | none => rfl
  | some n =>
      by_cases hn : n = 0 <;> simp [asignarSiNum, hn, asignar_ne, h]

theorem asignarSiStr_ne (p : Payload) (k : String) (x : Option String) (q : String)
    (h : q ≠ k) : asignarSiStr p k x q = p q := by
  cases x with
  | none => rfl
  | some s =>
      by_cases hs : s = "" <;> simp [asignarSiStr, hs, asignar_ne, h]

/-- Value an optional numeric attribute contributes to the payload: a key
bound to the decimal text when truthy, no key otherwise. -/
def valorOpcionalNum : Option Int → Option (Option String)
  | some n => if n ≠ 0 then some (some (toString n)) else none
  | none => none

/-- Value an optional string attribute contributes to the payload. -/
def valorOpcionalStr : Option String → Option (Option String)
  | some s => if s ≠ "" then some (some s) else none
  | none => none

theorem asignarSiNum_self (p : Payload) (k : String) (x : Option Int)
    (h : p k = none) : asignarSiNum p k x k = valorOpcionalNum x := by
  cases x with
  | none => simpa [asignarSiNum, valorOpcionalNum] using h
  | some n =>
      by_cases hn : n = 0 <;>
        simp [asignarSiNum, valorOpcionalNum, hn, asignar_self, h]

theorem asignarSiStr_self (p : Payload) (k : String) (x : Option String)
    (h : p k = none) : asignarSiStr p k x k = valorOpcionalStr x := by
  cases x with
  | none => simpa [asignarSiStr, valorOpcionalStr] using h
  | some s =>
      by_cases hs : s = "" <;>
        simp [asignarSiStr, valorOpcionalStr, hs, asignar_self, h]

theorem joinPipe_cons₂ (s t : String) (rest : List String) :
    joinPipe (s :: t :: rest) = s ++ "|" ++ joinPipe (t :: rest) := rfl

/-- Pipe-free fields joined with `|` contain exactly one pipe per separator. -/
theorem count_joinPipe (l : List String) (h : ∀ s ∈ l, '|' ∉ s.data) :
    (joinPipe l).data.count '|' = l.length - 1 := by
  induction l with
  | nil => simp [joinPipe]
  | cons s rest ih =>
      cases rest with
      | nil =>
          have hs := h s (by simp)
          simp [joinPipe, List.count_eq_zero.mpr hs]
      | cons t r =>
          have hs := h s (by simp)
          have hrest : ∀ u ∈ t :: r, '|' ∉ u.data := fun u hu => h u (by simp [hu])
          rw [joinPipe_cons₂, String.data_append, String.data_append]
          simp [List.count_append, List.count_eq_zero.mpr hs, ih hrest,
            List.length_cons]




/-! Claim C1. -/

/-- C1 is false as stated: with the default configuration and an order in
which every attribute is nullish, the canonical string carries 33 internal
separators (37 pipe characters in total, not the 36 that `32` internal
separators plus the two `||` delimiters would give), because the source's
`campos` array has 34 entries; and the absent `institucionOperante` at
position 6 renders as the configured fallback `90646`, not as the empty
string. -/
theorem construirCadenaOriginal_refuta_conteo :
    ordenVacia.institucionOperante = none ∧
    (campos defaultConfig ordenVacia)[5]? = some "90646" ∧
    (construirCadenaOriginal defaultConfig ordenVacia).data.count '|' = 37 := by
  decide

/-- C1 (amended): for every configuration and order whose rendered fields
are pipe-free, the canonical string starts and ends with `||` and carries
exactly 33 internal `|` separators forming 34 fields (37 pipe characters
in total); every attribute that is nullish in the order renders as the
empty string at its fixed position — never the literal `undefined` or
`null` — except the company (position 2) and operating-institution
(position 6) fields, which render the configured fallback values. -/
theorem construirCadenaOriginal_forma (cfg : StpConfig) (orden : OrdenPagoDto)
    (h : ∀ s ∈ campos cfg orden, '|' ∉ s.data) :
    ("||".data <+: (construirCadenaOriginal cfg orden).data) ∧
    ("||".data <:+ (construirCadenaOriginal cfg orden).data) ∧
    (campos cfg orden).length = 34 ∧
    (construirCadenaOriginal cfg orden).data.count '|' = 37 ∧
    (orden.institucionContraparte = none → (campos cfg orden)[0]? = some "") ∧
    (orden.empresa = none → (campos cfg orden)[1]? = some cfg.empresa) ∧
    (orden.fechaOperacion = none → (campos cfg orden)[2]? = some "") ∧
    (orden.folioOrigen = none → (campos cfg orden)[3]? = some "") ∧
    (orden.claveRastreo = none → (campos cfg orden)[4]? = some "") ∧
    (orden.institucionOperante = none →
      (campos cfg orden)[5]? = some (toString cfg.institucionOperante)) ∧
    (orden.monto = none → (campos cfg orden)[6]? = some "") ∧
    (orden.tipoPago = none → (campos cfg orden)[7]? = some "") ∧
    (orden.tipoCuentaOrdenante = none → (campos cfg orden)[8]? = some "") ∧
    (orden.nombreOrdenante = none → (campos cfg orden)[9]? = some "") ∧
    (orden.cuentaOrdenante = none → (campos cfg orden)[10]? = some "") ∧
    (orden.rfcCurpOrdenante = none → (campos cfg orden)[11]? = some "") ∧
    (orden.tipoCuentaBeneficiario = none → (campos cfg orden)[12]? = some "") ∧
    (orden.nombreBeneficiario = none → (campos cfg orden)[13]? = some "") ∧
    (orden.cuentaBeneficiario = none → (campos cfg orden)[14]? = some "") ∧
    (orden.rfcCurpBeneficiario = none → (campos cfg orden)[15]? = some "") ∧
    (orden.emailBeneficiario = none → (campos cfg orden)[16]? = some "") ∧
    (orden.tipoCuentaBeneficiario2 = none → (campos cfg orden)[17]? = some "") ∧
    (orden.nombreBeneficiario2 = none → (campos cfg orden)[18]? = some "") ∧
    (orden.cuentaBeneficiario2 = none → (campos cfg orden)[19]? = some "") ∧
    (orden.rfcCurpBeneficiario2 = none → (campos cfg orden)[20]? = some "") ∧
    (orden.conceptoPago = none → (campos cfg orden)[21]? = some "") ∧
    (orden.conceptoPago2 = none → (campos cfg orden)[22]? = some "") ∧
    (orden.claveCatUsuario1 = none → (campos cfg orden)[23]? = some "") ∧
    (orden.claveCatUsuario2 = none → (campos cfg orden)[24]? = some "") ∧
    (orden.clavePago = none → (campos cfg orden)[25]? = some "") ∧
    (orden.referenciaCobranza = none → (campos cfg orden)[26]? = some "") ∧
    (orden.referenciaNumerica = none → (campos cfg orden)[27]? = some "") ∧
    (orden.tipoOperacion = none → (campos cfg orden)[28]? = some "") ∧
    (orden.topologia = none → (campos cfg orden)[29]? = some "") ∧
    (orden.usuario = none → (campos cfg orden)[30]? = some "") ∧
    (orden.medioEntrega = none → (campos cfg orden)[31]? = some "") ∧
    (orden.prioridad = none → (campos cfg orden)[32]? = some "") ∧
    (orden.iva = none → (campos cfg orden)[33]? = some "") := by
  and_intros
  · show ('|' :: '|' :: []) <+: _
    rw [construirCadenaOriginal, String.data_append, String.data_append]
    exact ⟨(joinPipe (campos cfg orden)).data ++ "||".data, by simp⟩
  · rw [construirCadenaOriginal, String.data_append]
    exact ⟨("||" ++ joinPipe (campos cfg orden)).data, by simp [String.data_append]⟩
  · rfl
  · have hjoin := count_joinPipe (campos cfg orden) h
    have hlen : (campos cfg orden).length = 34 := rfl
    have hbar : (("||" : String).data).count '|' = 2 := rfl
    rw [construirCadenaOriginal, String.data_append, String.data_append,
      List.count_append, List.count_append, hjoin, hlen, hbar]
  all_goals intro h'
  all_goals simp [campos, h', renderNum, renderStr]

/-- Witness for the amended C1: the sample order has pipe-free fields; its
canonical string carries 37 pipe characters; and on the all-nullish order
the absent origin-folio position renders empty. -/
theorem construirCadenaOriginal_forma_witness :
    (∀ s ∈ campos defaultConfig ordenEjemplo, '|' ∉ s.data) ∧
    (construirCadenaOriginal defaultConfig ordenEjemplo).data.count '|' = 37 ∧
    ordenVacia.folioOrigen = none ∧
    (campos defaultConfig ordenVacia)[3]? = some "" := by
  refine ⟨by decide, (construirCadenaOriginal_forma defaultConfig ordenEjemplo
    (by decide)).2.2.2.1, rfl,
    (construirCadenaOriginal_forma defaultConfig ordenVacia
      (by decide)).2.2.2.2.2.2.2.1 rfl⟩

/-! Claim C2. -/

/-- C2: the canonical string is the 34 `campos` entries joined by `|`
between the `||` delimiters, and the i-th entry is exactly the i-th
attribute of the fixed order — position 1 counterpart-institution,
2 company (order value or configured fallback), 3 operation-date,
4 origin-folio, 5 tracking-key, 6 operating-institution (order value or
configured fallback), 7 amount, 8 payment-type, 9 ordering-account-type,
10 ordering-name, 11 ordering-account, 12 ordering-RFC/CURP,
13 beneficiary-account-type, 14 beneficiary-name, 15 beneficiary-account,
16 beneficiary-RFC/CURP, 17 beneficiary-email,
18 beneficiary2-account-type, 19 beneficiary2-name,
20 beneficiary2-account, 21 beneficiary2-RFC/CURP, 22 concept,
23 concept2, 24 catalog-key-1, 25 catalog-key-2, 26 payment-key,
27 collection-reference, 28 numeric-reference, 29 operation-type,
30 topology, 31 user, 32 delivery-medium, 33 priority, 34 VAT. -/
theorem construirCadenaOriginal_orden_campos (cfg : StpConfig) (orden : OrdenPagoDto) :
    construirCadenaOriginal cfg orden = "||" ++ joinPipe (campos cfg orden) ++ "||" ∧
    (campos cfg orden)[0]? = some (renderNum orden.institucionContraparte) ∧
    (campos cfg orden)[1]? = some (orden.empresa.getD cfg.empresa) ∧
    (campos cfg orden)[2]? = some (renderNum orden.fechaOperacion) ∧
    (campos cfg orden)[3]? = some (renderStr orden.folioOrigen) ∧
    (campos cfg orden)[4]? = some (renderStr orden.claveRastreo) ∧
    (campos cfg orden)[5]? =
      some (toString (orden.institucionOperante.getD cfg.institucionOperante)) ∧
    (campos cfg orden)[6]? = some (renderNum orden.monto) ∧
    (campos cfg orden)[7]? = some (renderNum orden.tipoPago) ∧
    (campos cfg orden)[8]? = some (renderNum orden.tipoCuentaOrdenante) ∧
    (campos cfg orden)[9]? = some (renderStr orden.nombreOrdenante) ∧
    (campos cfg orden)[10]? = some (renderStr orden.cuentaOrdenante) ∧
    (campos cfg orden)[11]? = some (renderStr orden.rfcCurpOrdenante) ∧
    (campos cfg orden)[12]? = some (renderNum orden.tipoCuentaBeneficiario) ∧
    (campos cfg orden)[13]? = some (renderStr orden.nombreBeneficiario) ∧
    (campos cfg orden)[14]? = some (renderStr orden.cuentaBeneficiario) ∧
    (campos cfg orden)[15]? = some (renderStr orden.rfcCurpBeneficiario) ∧
    (campos cfg orden)[16]? = some (renderStr orden.emailBeneficiario) ∧
    (campos cfg orden)[17]? = some (renderNum orden.tipoCuentaBeneficiario2) ∧
    (campos cfg orden)[18]? = some (renderStr orden.nombreBeneficiario2) ∧
    (campos cfg orden)[19]? = some (renderStr orden.cuentaBeneficiario2) ∧
    (campos cfg orden)[20]? = some (renderStr orden.rfcCurpBeneficiario2) ∧
    (campos cfg orden)[21]? = some (renderStr orden.conceptoPago) ∧
    (campos cfg orden)[22]? = some (renderStr orden.conceptoPago2) ∧
    (campos cfg orden)[23]? = some (renderNum orden.claveCatUsuario1) ∧
    (campos cfg orden)[24]? = some (renderNum orden.claveCatUsuario2) ∧
    (campos cfg orden)[25]? = some (renderStr orden.clavePago) ∧
    (campos cfg orden)[26]? = some (renderStr orden.referenciaCobranza) ∧
    (campos cfg orden)[27]? = some (renderNum orden.referenciaNumerica) ∧
    (campos cfg orden)[28]? = some (renderStr orden.tipoOperacion) ∧
    (campos cfg orden)[29]? = some (renderStr orden.topologia) ∧
    (campos cfg orden)[30]? = some (renderStr orden.usuario) ∧
    (campos cfg orden)[31]? = some (renderNum orden.medioEntrega) ∧
    (campos cfg orden)[32]? = some (renderNum orden.prioridad) ∧
    (campos cfg orden)[33]? = some (renderNum orden.iva) := by
  and_intros <;> rfl

/-! Claim C3. -/

/-- C3: the interpreter fails with the invalid-response message and no
error code when the identifier is absent or null; succeeds with
`folioStp` equal to the identifier when it is strictly greater than
`999`; and fails with `errorCode` equal to the identifier for every
identifier at most `999`, zero and negative identifiers included — the
boundary is `> 999`, not `>= 1000`. -/
theorem procesarRespuesta_clasificacion (d : RespBody) :
    (respId d = none →
      procesarRespuesta d =
        { success := false, message := "Respuesta inválida de STP",
          rawResponse := some d }) ∧
    (∀ i : Int, respId d = some i → 999 < i →
      procesarRespuesta d =
        { success := true, folioStp := some i,
          message := "Orden de pago registrada exitosamente",
          rawResponse := some d }) ∧
    (∀ i : Int, respId d = some i → i ≤ 999 →
      procesarRespuesta d =
        { success := false, errorCode := some i,
          message := obtenerMensajeError i, rawResponse := some d }) := by
  refine ⟨fun h => ?_, fun i h hi => ?_, fun i h hi => ?_⟩
  · simp [procesarRespuesta, h]
  · simp [procesarRespuesta, h, hi]
  · have hn : ¬ (999 : Int) < i := by omega
    simp [procesarRespuesta, h, hn]

/-- Witness for C3, at the spec's boundary inputs: id 1000 succeeds with
folio 1000, id 999 and id 0 take the error-code branch, a null identifier
yields the invalid-response failure. -/
theorem procesarRespuesta_clasificacion_witness :
    procesarRespuesta { resultadoId := some 1000 } =
      { success := true, folioStp := some 1000,
        message := "Orden de pago registrada exitosamente",
        rawResponse := some { resultadoId := some 1000 } } ∧
    procesarRespuesta { resultadoId := some 999 } =
      { success := false, errorCode := some 999,
        message := obtenerMensajeError 999,
        rawResponse := some { resultadoId := some 999 } } ∧
    procesarRespuesta { resultadoId := some 0 } =
      { success := false, errorCode := some 0,
        message := obtenerMensajeError 0,
        rawResponse := some { resultadoId := some 0 } } ∧
    procesarRespuesta {} =
      { success := false, message := "Respuesta inválida de STP",
        rawResponse := some {} } :=
  ⟨(procesarRespuesta_clasificacion { resultadoId := some 1000 }).2.1 1000 rfl
      (by decide),
   (procesarRespuesta_clasificacion { resultadoId := some 999 }).2.2 999 rfl
      (by decide),
   (procesarRespuesta_clasificacion { resultadoId := some 0 }).2.2 0 rfl
      (by decide),
   (procesarRespuesta_clasificacion {}).1 rfl⟩

/-! Claim C5. -/

/-- C5: the eleven tabled codes resolve to their fixed messages, and every
code outside the table resolves to the generic unknown-error message
embedding the numeric code. -/
theorem obtenerMensajeError_tabla :
    obtenerMensajeError 0 = "Error general" ∧
    obtenerMensajeError 1 = "Firma electrónica inválida" ∧
    obtenerMensajeError 2 = "Empresa no válida" ∧
    obtenerMensajeError 3 = "Institución contraparte no válida" ∧
    obtenerMensajeError 4 = "Cuenta ordenante no válida" ∧
    obtenerMensajeError 5 = "Cuenta beneficiario no válida" ∧
    obtenerMensajeError 6 = "Tipo de cuenta no válido" ∧
    obtenerMensajeError 7 = "Monto no válido" ∧
    obtenerMensajeError 8 = "Fecha de operación no válida" ∧
    obtenerMensajeError 9 = "Clave de rastreo duplicada" ∧
    obtenerMensajeError 10 = "RFC/CURP no válido" ∧
    (∀ c : Int, c ∉ ([0, 1, 2, 3, 4, 5, 6, 7, 8, 9, 10] : List Int) →
      obtenerMensajeError c = "Error desconocido (código: " ++ toString c ++ ")") := by
  and_intros
  all_goals try rfl
  intro c hc
  simp only [List.mem_cons, List.not_mem_nil, or_false, not_or] at hc
  obtain ⟨h0, h1, h2, h3, h4, h5, h6, h7, h8, h9, h10⟩ := hc
  simp [obtenerMensajeError, h0, h1, h2, h3, h4, h5, h6, h7, h8, h9, h10]

/-- Witness for C5 at the untabled code 999. -/
theorem obtenerMensajeError_tabla_witness :
    (999 : Int) ∉ ([0, 1, 2, 3, 4, 5, 6, 7, 8, 9, 10] : List Int) ∧
    obtenerMensajeError 999 = "Error desconocido (código: " ++ toString (999 : Int) ++ ")" :=
  ⟨by decide,
   obtenerMensajeError_tabla.2.2.2.2.2.2.2.2.2.2.2 999 (by decide)⟩

/-! Claim C9. -/

/-- C9: whenever `resultado.id` is present the interpreter uses it and
never consults the top-level `id`; the fallback is taken only when
`resultado.id` is nullish; in particular a body with `resultado.id = 0`
and a large top-level `id` is classified as business error 0
(`Error general`), not as a success. -/
theorem respId_prefiere_resultado (d : RespBody) :
    (∀ i : Int, d.resultadoId = some i → respId d = some i) ∧
    (d.resultadoId = none → respId d = d.topId) ∧
    (procesarRespuesta { resultadoId := some 0, topId := some 1000000 }).success = false ∧
    (procesarRespuesta { resultadoId := some 0, topId := some 1000000 }).errorCode = some 0 ∧
    (procesarRespuesta { resultadoId := some 0, topId := some 1000000 }).message =
      "Error general" := by
  refine ⟨fun i h => ?_, fun h => ?_, by decide, by decide, by decide⟩
  · simp [respId, h]
  · simp [respId, h]

/-- Witness for C9: a body carrying both identifiers resolves to the
nested one; a body with a nullish `resultado.id` falls back to the
top-level one. -/
theorem respId_prefiere_resultado_witness :
    respId { resultadoId := some 7, topId := some 12345 } = some 7 ∧
    respId { resultadoId := none, topId := some 12345 } = some 12345 :=
  ⟨(respId_prefiere_resultado { resultadoId := some 7, topId := some 12345 }).1 7 rfl,
   (respId_prefiere_resultado { resultadoId := none, topId := some 12345 }).2.1 rfl⟩

/-! Claim C4. -/

/-- C4: the assembled payload always carries every required field (the
numeric-valued ones as their decimal text, via `String(...)`), always
carries the signature field, and carries an optional field exactly when
the order's value for it is truthy — nullish, zero or empty-string
optional attributes are omitted entirely and never emitted as explicit
nulls (`valorOpcionalNum`/`valorOpcionalStr` never produce `some none`). -/
theorem construirPayload_campos (cfg : StpConfig) (orden : OrdenPagoDto) (firma : String) :
    construirPayload cfg orden firma "claveRastreo" = some orden.claveRastreo ∧
    construirPayload cfg orden firma "conceptoPago" = some orden.conceptoPago ∧
    construirPayload cfg orden firma "cuentaOrdenante" = some orden.cuentaOrdenante ∧
    construirPayload cfg orden firma "cuentaBeneficiario" = some orden.cuentaBeneficiario ∧
    construirPayload cfg orden firma "empresa" =
      some (some (orden.empresa.getD cfg.empresa)) ∧
    construirPayload cfg orden firma "institucionContraparte" =
      some (some (jsStringN orden.institucionContraparte)) ∧
    construirPayload cfg orden firma "institucionOperante" =
      some (some (toString (orden.institucionOperante.getD cfg.institucionOperante))) ∧
    construirPayload cfg orden firma "monto" = some (some (jsStringN orden.monto)) ∧
    construirPayload cfg orden firma "nombreBeneficiario" = some orden.nombreBeneficiario ∧
    construirPayload cfg orden firma "nombreOrdenante" = some orden.nombreOrdenante ∧
    construirPayload cfg orden firma "referenciaNumerica" =
      some (some (jsStringN orden.referenciaNumerica)) ∧
    construirPayload cfg orden firma "rfcCurpBeneficiario" = some orden.rfcCurpBeneficiario ∧
    construirPayload cfg orden firma "rfcCurpOrdenante" = some orden.rfcCurpOrdenante ∧
    construirPayload cfg orden firma "tipoCuentaBeneficiario" =
      some (some (jsStringN orden.tipoCuentaBeneficiario)) ∧
    construirPayload cfg orden firma "tipoCuentaOrdenante" =
      some (some (jsStringN orden.tipoCuentaOrdenante)) ∧
    construirPayload cfg orden firma "tipoPago" = some (some (jsStringN orden.tipoPago)) ∧
    construirPayload cfg orden firma "latitud" = some orden.latitud ∧
    construirPayload cfg orden firma "longitud" = some orden.longitud ∧
    construirPayload cfg orden firma "firma" = some (some firma) ∧
    (∀ n : Int, jsStringN (some n) = toString n) ∧
    construirPayload cfg orden firma "fechaOperacion" = valorOpcionalNum orden.fechaOperacion ∧
    construirPayload cfg orden firma "folioOrigen" = valorOpcionalStr orden.folioOrigen ∧
    construirPayload cfg orden firma "emailBeneficiario" =
      valorOpcionalStr orden.emailBeneficiario ∧
    construirPayload cfg orden firma "tipoCuentaBeneficiario2" =
      valorOpcionalNum orden.tipoCuentaBeneficiario2 ∧
    construirPayload cfg orden firma "nombreBeneficiario2" =
      valorOpcionalStr orden.nombreBeneficiario2 ∧
    construirPayload cfg orden firma "cuentaBeneficiario2" =
      valorOpcionalStr orden.cuentaBeneficiario2 ∧
    construirPayload cfg orden firma "rfcCurpBeneficiario2" =
      valorOpcionalStr orden.rfcCurpBeneficiario2 ∧
    construirPayload cfg orden firma "conceptoPago2" = valorOpcionalStr orden.conceptoPago2 ∧
    construirPayload cfg orden firma "claveCatUsuario1" =
      valorOpcionalNum orden.claveCatUsuario1 ∧
    construirPayload cfg orden firma "claveCatUsuario2" =
      valorOpcionalNum orden.claveCatUsuario2 ∧
    construirPayload cfg orden firma "clavePago" = valorOpcionalStr orden.clavePago ∧
    construirPayload cfg orden firma "referenciaCobranza" =
      valorOpcionalStr orden.referenciaCobranza ∧
    construirPayload cfg orden firma "tipoOperacion" = valorOpcionalStr orden.tipoOperacion ∧
    construirPayload cfg orden firma "topologia" = valorOpcionalStr orden.topologia ∧
    construirPayload cfg orden firma "usuario" = valorOpcionalStr orden.usuario ∧
    construirPayload cfg orden firma "medioEntrega" = valorOpcionalNum orden.medioEntrega ∧
    construirPayload cfg orden firma "prioridad" = valorOpcionalNum orden.prioridad ∧
    construirPayload cfg orden firma "iva" = valorOpcionalNum orden.iva ∧
    (∀ x : Option Int, ∀ v, valorOpcionalNum x = some v → v.isSome = true) ∧
    (∀ x : Option String, ∀ v, valorOpcionalStr x = some v → v.isSome = true) ∧
    (∀ x : Option Int, (valorOpcionalNum x).isSome = true ↔ ∃ n, x = some n ∧ n ≠ 0) ∧
    (∀ x : Option String, (valorOpcionalStr x).isSome = true ↔ ∃ s, x = some s ∧ s ≠ "") := by
  and_intros <;>
    try (simp +decide only [construirPayload, asignarSiNum_ne, asignarSiStr_ne,
      asignar_ne, asignar_self, asignarSiNum_self, asignarSiStr_self, vacio_apply]; done)
  · intro n
    rfl
  · intro x v h
    rcases x with _ | n
    · simp [valorOpcionalNum] at h
    · by_cases hn : n = 0 <;> simp [valorOpcionalNum, hn] at h <;> simp [← h]
  · intro x v h
    rcases x with _ | s
    · simp [valorOpcionalStr] at h
    · by_cases hs : s = "" <;> simp [valorOpcionalStr, hs] at h <;> simp [← h]
  · intro x
    rcases x with _ | n
    · simp [valorOpcionalNum]
    · by_cases hn : n = 0 <;> simp [valorOpcionalNum, hn]
  · intro x
    rcases x with _ | s
    · simp [valorOpcionalStr]
    · by_cases hs : s = "" <;> simp [valorOpcionalStr, hs]

/-- Witness for C4 on the sample order: the required amount travels as the
text `1500`, the absent origin folio produces no key at all, the
signature key is present, and a nonzero optional value counts as truthy. -/
theorem construirPayload_campos_witness :
    construirPayload defaultConfig ordenEjemplo "FIRMA" "monto" = some (some "1500") ∧
    construirPayload defaultConfig ordenEjemplo "FIRMA" "folioOrigen" = none ∧
    construirPayload defaultConfig ordenEjemplo "FIRMA" "firma" = some (some "FIRMA") ∧
    (valorOpcionalNum (some (5 : Int))).isSome = true := by
  obtain ⟨h1, h2, h3, h4, h5, h6, h7, h8, h9, h10, h11, h12, h13, h14, h15, h16,
    h17, h18, h19, h20, h21, h22, h23, h24, h25, h26, h27, h28, h29, h30, h31,
    h32, h33, h34, h35, h36, h37, h38, h39, h40, h41, h42⟩ :=
    construirPayload_campos defaultConfig ordenEjemplo "FIRMA"
  refine ⟨?_, ?_, h19, (h41 (some 5)).mpr ⟨5, rfl, by decide⟩⟩
  · rw [h8]
    rfl
  · rw [h22]
    rfl

/-! Oracles used to instantiate the orchestrator. -/

/-- Signing oracle that always throws, modelling a missing key file. -/
def firmaFalla : String → Except String String :=
  fun _ => .error "Error al generar firma electrónica: llave no encontrada"

/-- Signing oracle producing a fixed signature. -/
def firmaFija : String → Except String String := fun _ => .ok "FIRMA"

/-- Transport oracle rejecting at connection level (no response). -/
def transporteCaido : Payload → TransportOutcome := fun _ => .connError "socket hang up"

/-- Transport oracle rejecting with an HTTP 500 and no parsed body. -/
def transporteHttp500 : Payload → TransportOutcome := fun _ => .httpError 500 none

/-- Transport oracle answering the success body with folio 123456789. -/
def transporteFolio : Payload → TransportOutcome :=
  fun _ => .ok { resultadoId := some 123456789 }

/-- Transport oracle answering the duplicate-tracking-key business error. -/
def transporteError9 : Payload → TransportOutcome :=
  fun _ => .ok { resultadoId := some 9 }

/-! Claim C6. -/

/-- C6 is false as stated: when the signing step throws, the catch block
of `registrarOrdenPago` returns a result that carries neither the
canonical string nor a signature. -/
theorem registrarOrdenPago_sin_eco :
    (registrarOrdenPago defaultConfig firmaFalla transporteCaido ordenEjemplo).cadenaOriginal
      = none ∧
    (registrarOrdenPago defaultConfig firmaFalla transporteCaido ordenEjemplo).firma = none :=
  ⟨rfl, rfl⟩

/-- C6 (amended): the result echoes the canonical string and the signature
exactly in the outcomes that flow through `procesarRespuesta` (remote
success and remote business failure); on a thrown signing error and on
both transport failures the catch block returns a result carrying
neither. -/
theorem registrarOrdenPago_eco (cfg : StpConfig) (sign : String → Except String String)
    (transport : Payload → TransportOutcome) (orden : OrdenPagoDto) :
    (∀ firma data, sign (construirCadenaOriginal cfg orden) = .ok firma →
      transport (construirPayload cfg orden firma) = .ok data →
      (registrarOrdenPago cfg sign transport orden).cadenaOriginal =
        some (construirCadenaOriginal cfg orden) ∧
      (registrarOrdenPago cfg sign transport orden).firma = some firma) ∧
    (∀ msg, sign (construirCadenaOriginal cfg orden) = .error msg →
      (registrarOrdenPago cfg sign transport orden).cadenaOriginal = none ∧
      (registrarOrdenPago cfg sign transport orden).firma = none) ∧
    (∀ firma status body, sign (construirCadenaOriginal cfg orden) = .ok firma →
      transport (construirPayload cfg orden firma) = .httpError status body →
      (registrarOrdenPago cfg sign transport orden).cadenaOriginal = none ∧
      (registrarOrdenPago cfg sign transport orden).firma = none) ∧
    (∀ firma msg, sign (construirCadenaOriginal cfg orden) = .ok firma →
      transport (construirPayload cfg orden firma) = .connError msg →
      (registrarOrdenPago cfg sign transport orden).cadenaOriginal = none ∧
      (registrarOrdenPago cfg sign transport orden).firma = none) := by
  refine ⟨fun firma data h1 h2 => ?_, fun msg h1 => ?_,
    fun firma status body h1 h2 => ?_, fun firma msg h1 h2 => ?_⟩
  · simp [registrarOrdenPago, h1, h2]
  · simp [registrarOrdenPago, h1]
  · simp [registrarOrdenPago, h1, h2]
  · simp [registrarOrdenPago, h1, h2]

/-- Witness for the amended C6: on the successful end-to-end run the
result echoes the canonical string and the signature. -/
theorem registrarOrdenPago_eco_witness :
    (registrarOrdenPago defaultConfig firmaFija transporteFolio ordenEjemplo).cadenaOriginal =
      some (construirCadenaOriginal defaultConfig ordenEjemplo) ∧
    (registrarOrdenPago defaultConfig firmaFija transporteFolio ordenEjemplo).firma =
      some "FIRMA" :=
  (registrarOrdenPago_eco defaultConfig firmaFija transporteFolio ordenEjemplo).1 "FIRMA"
    { resultadoId := some 123456789 } rfl rfl

/-! Claim C7. -/

/-- C7 is false as stated: an HTTP-level rejection (status 500 with no
parsed body, so no remote identifier exists at all) still yields a result
whose `errorCode` is present — it is the HTTP status, not a remote
business code. -/
theorem registrarOrdenPago_errorCode_transporte :
    (registrarOrdenPago defaultConfig firmaFija transporteHttp500 ordenEjemplo).success
      = false ∧
    (registrarOrdenPago defaultConfig firmaFija transporteHttp500 ordenEjemplo).errorCode
      = some 500 ∧
    (registrarOrdenPago defaultConfig firmaFija transporteHttp500 ordenEjemplo).rawResponse
      = none :=
  ⟨rfl, rfl, rfl⟩

/-- C7 (amended): `errorCode` is present exactly on the two failure paths
that carry a code — a remote business failure (identifier at most 999,
the code being that identifier) and an HTTP error response (the code
being the HTTP status); it is absent on success, on a signing failure,
on a connection-level failure, and on an invalid response body. -/
theorem registrarOrdenPago_errorCode (cfg : StpConfig)
    (sign : String → Except String String) (transport : Payload → TransportOutcome)
    (orden : OrdenPagoDto) :
    (∀ msg, sign (construirCadenaOriginal cfg orden) = .error msg →
      (registrarOrdenPago cfg sign transport orden).errorCode = none) ∧
    (∀ firma msg, sign (construirCadenaOriginal cfg orden) = .ok firma →
      transport (construirPayload cfg orden firma) = .connError msg →
      (registrarOrdenPago cfg sign transport orden).errorCode = none) ∧
    (∀ firma status body, sign (construirCadenaOriginal cfg orden) = .ok firma →
      transport (construirPayload cfg orden firma) = .httpError status body →
      (registrarOrdenPago cfg sign transport orden).errorCode = some status ∧
      (registrarOrdenPago cfg sign transport orden).success = false) ∧
    (∀ firma data, sign (construirCadenaOriginal cfg orden) = .ok firma →
      transport (construirPayload cfg orden firma) = .ok data → respId data = none →
      (registrarOrdenPago cfg sign transport orden).errorCode = none ∧
      (registrarOrdenPago cfg sign transport orden).success = false) ∧
    (∀ firma data i, sign (construirCadenaOriginal cfg orden) = .ok firma →
      transport (construirPayload cfg orden firma) = .ok data → respId data = some i →
      999 < i →
      (registrarOrdenPago cfg sign transport orden).errorCode = none ∧
      (registrarOrdenPago cfg sign transport orden).success = true) ∧
    (∀ firma data i, sign (construirCadenaOriginal cfg orden) = .ok firma →
      transport (construirPayload cfg orden firma) = .ok data → respId data = some i →
      i ≤ 999 →
      (registrarOrdenPago cfg sign transport orden).errorCode = some i ∧
      (registrarOrdenPago cfg sign transport orden).success = false) := by
  refine ⟨fun msg h1 => ?_, fun firma msg h1 h2 => ?_, fun firma status body h1 h2 => ?_,
    fun firma data h1 h2 h3 => ?_, fun firma data i h1 h2 h3 h4 => ?_,
    fun firma data i h1 h2 h3 h4 => ?_⟩
  · simp [registrarOrdenPago, h1]
  · simp [registrarOrdenPago, h1, h2]
  · simp [registrarOrdenPago, h1, h2]
  · simp [registrarOrdenPago, procesarRespuesta, h1, h2, h3]
  · simp [registrarOrdenPago, procesarRespuesta, h1, h2, h3, h4]
  · have hn : ¬ (999 : Int) < i := by omega
    simp [registrarOrdenPago, procesarRespuesta, h1, h2, h3, hn]

/-- Witness for the amended C7: the duplicate-tracking-key response gives
a failure result carrying business error code 9. -/
theorem registrarOrdenPago_errorCode_witness :
    (registrarOrdenPago defaultConfig firmaFija transporteError9 ordenEjemplo).errorCode =
      some 9 ∧
    (registrarOrdenPago defaultConfig firmaFija transporteError9 ordenEjemplo).success =
      false :=
  (registrarOrdenPago_errorCode defaultConfig firmaFija transporteError9
    ordenEjemplo).2.2.2.2.2 "FIRMA" { resultadoId := some 9 } 9 rfl rfl rfl (by decide)

/-! Claim C8. -/

/-- C8: every failure is returned as a value with `success = false` — the
thrown signing error is caught and converted into the connection-error
result, both transport failures yield failure results, and a remote
business error (identifier at most 999) is delivered as a normal result
carrying the code and the mapped message together with the echoed
canonical string and signature.  The embedding of `registrarOrdenPago` is
total by construction, mirroring the top-level `try`/`catch` that lets no
exception escape to the caller. -/
theorem registrarOrdenPago_fallas_como_valores (cfg : StpConfig)
    (sign : String → Except String String) (transport : Payload → TransportOutcome)
    (orden : OrdenPagoDto) :
    (∀ msg, sign (construirCadenaOriginal cfg orden) = .error msg →
      registrarOrdenPago cfg sign transport orden =
        { success := false, message := "Error al conectar con STP: " ++ msg }) ∧
    (∀ firma msg, sign (construirCadenaOriginal cfg orden) = .ok firma →
      transport (construirPayload cfg orden firma) = .connError msg →
      (registrarOrdenPago cfg sign transport orden).success = false) ∧
    (∀ firma status body, sign (construirCadenaOriginal cfg orden) = .ok firma →
      transport (construirPayload cfg orden firma) = .httpError status body →
      (registrarOrdenPago cfg sign transport orden).success = false) ∧
    (∀ firma data i, sign (construirCadenaOriginal cfg orden) = .ok firma →
      transport (construirPayload cfg orden firma) = .ok data → respId data = some i →
      i ≤ 999 →
      registrarOrdenPago cfg sign transport orden =
        { success := false, errorCode := some i, message := obtenerMensajeError i,
          rawResponse := some data,
          cadenaOriginal := some (construirCadenaOriginal cfg orden),
          firma := some firma }) := by
  refine ⟨fun msg h1 => ?_, fun firma msg h1 h2 => ?_, fun firma status body h1 h2 => ?_,
    fun firma data i h1 h2 h3 h4 => ?_⟩
  · simp [registrarOrdenPago, h1]
  · simp [registrarOrdenPago, h1, h2]
  · simp [registrarOrdenPago, h1, h2]
  · have hn : ¬ (999 : Int) < i := by omega
    simp [registrarOrdenPago, procesarRespuesta, h1, h2, h3, hn]

/-- Witness for C8: a thrown signing error is converted to the failure
result with the connection-error message. -/
theorem registrarOrdenPago_fallas_como_valores_witness :
    registrarOrdenPago defaultConfig firmaFalla transporteCaido ordenEjemplo =
      { success := false,
        message := "Error al conectar con STP: " ++
          "Error al generar firma electrónica: llave no encontrada" } :=
  (registrarOrdenPago_fallas_como_valores defaultConfig firmaFalla transporteCaido
    ordenEjemplo).1 "Error al generar firma electrónica: llave no encontrada" rfl

/-! Claim C10. -/

/-- C10: position 2 of the canonical string and the payload's `empresa`
entry hold the same fallback-resolved company value, and position 6 and
the payload's `institucionOperante` entry hold the same fallback-resolved
operating-institution code in its decimal text form. -/
theorem cadena_payload_coinciden (cfg : StpConfig) (orden : OrdenPagoDto) (firma : String) :
    (campos cfg orden)[1]? = some (orden.empresa.getD cfg.empresa) ∧
    construirPayload cfg orden firma "empresa" =
      some (some (orden.empresa.getD cfg.empresa)) ∧
    (campos cfg orden)[5]? =
      some (toString (orden.institucionOperante.getD cfg.institucionOperante)) ∧
    construirPayload cfg orden firma "institucionOperante" =
      some (some (toString (orden.institucionOperante.getD cfg.institucionOperante))) := by
  refine ⟨rfl, ?_, rfl, ?_⟩ <;>
    simp +decide only [construirPayload, asignarSiNum_ne, asignarSiStr_ne, asignar_ne,
      asignar_self]
